import Mathlib

/-!
Verification of the AI usage monitor's provider-usage resolution and caching
engine, shallowly embedded from the TypeScript sources.

Conventions of the embedding:
* JavaScript timestamps (Date values, Date.now()) are epoch milliseconds, `Int`.
* Count-like JSON payload numbers are `Int`; quantities the code computes by
  division (utilizations, dollar costs, price rates) are `ℚ`.
* JavaScript Math.round is `jsRound` (floor of q + 1/2, half toward +inf).
* Fallible calls (fetch, JSON parse, keychain extraction) are `Option`/`Except`
  inputs describing the outcome of the external interaction; a rejected promise
  is `Except.error` / `none`.
* Optional record fields of the TypeScript interfaces are `Option` fields; an
  omitted field is `none`.
-/

namespace AIUsage

/-- JavaScript Math.round: floor(q + 1/2), i.e. round half toward +infinity. -/
def jsRound (q : ℚ) : Int := Rat.floor (q + 1/2)

theorem jsRound_def (q : ℚ) : jsRound q = ⌊q + 1/2⌋ := rfl

/-- If 0 ≤ q ≤ 100 then 0 ≤ jsRound q ≤ 100. -/
theorem jsRound_bounds {q : ℚ} (h0 : 0 ≤ q) (h1 : q ≤ 100) :
    0 ≤ jsRound q ∧ jsRound q ≤ 100 := by
  rw [jsRound_def]
  constructor
  · exact Int.le_floor.mpr (by push_cast; linarith)
  · have : ⌊q + 1/2⌋ < 101 := Int.floor_lt.mpr (by push_cast; linarith)
    omega

/-- status field of a usage record: 'active' | 'inactive' | 'error'. -/
inductive UStatus
  | active
  | inactive
  | error
deriving DecidableEq, Repr

/-- types/index.ts RateLimit. `reset` is a Date (epoch ms). -/
structure RateLimitW where
  limit : Int
  remaining : Int
  reset : Int
  percentage : Int
deriving DecidableEq, Repr

/-- types/index.ts Quota. -/
structure QuotaW where
  monthlyLimit : Int
  monthlyUsed : Int
  resetDate : Int
  percentage : Int
deriving DecidableEq, Repr

/-- types/index.ts ModelBreakdown. -/
structure ModelBreakdown where
  model : String
  requests : Int
  tokens : Int
  cost : ℚ
deriving DecidableEq, Repr

/-- types/index.ts CodingMetrics (all fields optional). Warp's untyped extra
metadata (creditBreakdown, usageHistory, ...) spread into this object lies
outside the declared interface and is not modelled. -/
structure CodingMetrics where
  suggestionsShown : Option Int := none
  suggestionsAccepted : Option Int := none
  acceptanceRate : Option Int := none
  linesGenerated : Option Int := none
  linesAccepted : Option Int := none
  chatsCompleted : Option Int := none
  activeUsers : Option Int := none
  sessions : Option Int := none
  toolCalls : Option Int := none
  cacheHitRate : Option Int := none
  cacheReadTokens : Option Int := none
  cacheCreationTokens : Option Int := none
  marketValue : Option ℚ := none
  subscriptionCost : Option ℚ := none
deriving DecidableEq, Repr

/-- types/index.ts ProviderUsage, the uniform usage record. -/
structure ProviderUsage where
  id : String
  name : String
  requests : Int
  cost : ℚ
  tokens : Option Int := none
  suggestions : Option Int := none
  edgeInvocations : Option Int := none
  status : UStatus
  lastUpdated : Option Int := none
  rateLimit : Option RateLimitW := none
  quota : Option QuotaW := none
  codingMetrics : Option CodingMetrics := none
  modelBreakdown : Option (List ModelBreakdown) := none
  planName : Option String := none
  errorMessage : Option String := none
deriving DecidableEq, Repr

/-- types/index.ts Summary. The change fields are optional because the
disabled-path summary literal in DataAggregator.fetchAllUsage omits them. -/
structure Summary where
  totalRequests : Int
  totalCost : ℚ
  totalTokens : Int
  avgLatency : ℚ
  requestChange : Option Int := none
  costChange : Option ℚ := none
  tokenChange : Option Int := none
  latencyChange : Option ℚ := none
deriving DecidableEq, Repr

/-- types/index.ts TimelineData. -/
structure TimelineData where
  date : String
  requests : Int
  cost : ℚ
deriving DecidableEq, Repr

/-- types/index.ts UsageData, the snapshot returned by the aggregator. -/
structure UsageData where
  summary : Summary
  providers : List ProviderUsage
  timeline : List TimelineData
  lastUpdated : Int
deriving DecidableEq, Repr

/-! ## TTL cache (services/cache.ts, CacheManager) -/

/-- types/index.ts CacheEntry: { data, timestamp (Date.now() ms), ttl (seconds) }. -/
structure CacheEntry (α : Type) where
  data : α
  timestamp : Int
  ttl : Int
deriving DecidableEq, Repr

/-- The Map<string, CacheEntry<T>> held by CacheManager, as an association
list in insertion order. -/
abbrev TTLCache (α : Type) := List (String × CacheEntry α)

/-- Map.prototype.get. -/
def cacheLookup (c : TTLCache α) (key : String) : Option (CacheEntry α) :=
  (c.find? (fun kv => kv.fst == key)).map Prod.snd

/-- Map.prototype.set: replace in place when the key exists, else append. -/
def mapSet (c : TTLCache α) (key : String) (e : CacheEntry α) : TTLCache α :=
  match c with
  | [] => [(key, e)]
  | kv :: rest => if kv.fst == key then (key, e) :: rest else kv :: mapSet rest key e

/-- Map.prototype.delete. -/
def mapDelete (c : TTLCache α) (key : String) : TTLCache α :=
  match c with
  | [] => []
  | kv :: rest => if kv.fst == key then rest else kv :: mapDelete rest key

/-- CacheManager.set. The stored ttl is `ttl || this.defaultTtl`: an absent
ttl argument, and ALSO a ttl of 0 (falsy in JavaScript), store the default. -/
def cacheSet (c : TTLCache α) (key : String) (data : α) (ttl : Option Int)
    (defaultTtl : Int) (now : Int) : TTLCache α :=
  let t : Int :=
    match ttl with
    | some v => if v == 0 then defaultTtl else v
    | none => defaultTtl
  mapSet c key { data := data, timestamp := now, ttl := t }

/-- CacheManager.get: miss on an absent key; on a present key the entry is
lazily evicted (deleted, miss) when age = (now - timestamp)/1000 seconds
strictly exceeds its ttl, else it is a hit. Returns the result together with
the cache as left after the call. -/
def cacheGet (c : TTLCache α) (key : String) (now : Int) : Option α × TTLCache α :=
  match cacheLookup c key with
  | none => (none, c)
  | some e =>
      if now - e.timestamp > e.ttl * 1000 then (none, mapDelete c key)
      else (some e.data, c)

/-- The unique-keys invariant a JavaScript Map maintains for its backing store. -/
def NodupKeys (c : TTLCache α) : Prop := (c.map Prod.fst).Nodup

theorem cacheLookup_mapSet_self (c : TTLCache α) (key : String) (e : CacheEntry α) :
    cacheLookup (mapSet c key e) key = some e := by
  induction c with
  | nil => simp [cacheLookup, mapSet, List.find?]
  | cons kv rest ih =>
      by_cases h : kv.fst == key
      · simp [cacheLookup, mapSet, h, List.find?]
      · simpa [cacheLookup, mapSet, h, List.find?] using ih

theorem mapSet_keys (c : TTLCache α) (key : String) (e : CacheEntry α) :
    (mapSet c key e).map Prod.fst =
      if key ∈ c.map Prod.fst then c.map Prod.fst else c.map Prod.fst ++ [key] := by
  induction c with
  | nil => simp [mapSet]
  | cons kv rest ih =>
      by_cases h : kv.fst = key
      · subst h
        simp [mapSet]
      · have hb : (kv.fst == key) = false := by simpa using h
        have hk : ¬ key = kv.fst := fun hc => h hc.symm
        simp only [mapSet, hb, Bool.false_eq_true, if_false, List.map_cons, ih,
          List.mem_cons]
        by_cases hm : key ∈ rest.map Prod.fst
        · simp [hm, hk]
        · simp [hm, hk]

theorem mapSet_nodupKeys {c : TTLCache α} (key : String) (e : CacheEntry α)
    (hnd : NodupKeys c) : NodupKeys (mapSet c key e) := by
  unfold NodupKeys at *
  rw [mapSet_keys]
  by_cases hm : key ∈ c.map Prod.fst
  · simpa [hm] using hnd
  · rw [if_neg hm, List.nodup_append]
    refine ⟨hnd, List.nodup_singleton key, ?_⟩
    intro a ha hb
    have ha2 : a = key := by simpa using hb
    exact hm (ha2 ▸ ha)

theorem cacheLookup_mapDelete_self (c : TTLCache α) (key : String)
    (hnd : NodupKeys c) : cacheLookup (mapDelete c key) key = none := by
  induction c with
  | nil => simp [cacheLookup, mapDelete]
  | cons kv rest ih =>
      unfold NodupKeys at hnd
      simp only [List.map_cons, List.nodup_cons] at hnd
      by_cases h : kv.fst == key
      · have hk : kv.fst = key := by simpa using h
        subst hk
        simp only [mapDelete, h, if_true]
        simp only [cacheLookup]
        cases hfind : rest.find? (fun kv2 => kv2.fst == kv.fst) with
        | none => simp [hfind]
        | some kv2 =>
            exfalso
            have hp := List.find?_some hfind
            have hmem2 := List.mem_of_find?_eq_some hfind
            have heq : kv2.fst = kv.fst := by simpa using hp
            exact hnd.1 (heq ▸ List.mem_map_of_mem Prod.fst hmem2)
      · simpa [cacheLookup, mapDelete, h, List.find?] using ih hnd.2

/-- After a miss reported by CacheManager.get, the key is not in the cache
(either it was absent, or the expired entry was deleted). -/
theorem cacheGet_miss_lookup_none {c : TTLCache α} {key : String} {now : Int}
    (hnd : NodupKeys c) (h : (cacheGet c key now).fst = none) :
    cacheLookup (cacheGet c key now).snd key = none := by
  cases hl : cacheLookup c key with
  | none => simp [cacheGet, hl]
  | some e =>
      by_cases hexp : now - e.timestamp > e.ttl * 1000
      · simp only [cacheGet, hl, if_pos hexp]
        exact cacheLookup_mapDelete_self c key hnd
      · simp only [cacheGet, hl, if_neg hexp] at h
        simp at h

/-!
### Claim C9 — CacheManager.get / set / expiry

The claim as frozen quantifies over every ttl. It fails at ttl = 0: the
source stores the entry with `ttl || this.defaultTtl`, so a ttl of 0 (falsy)
silently becomes the default ttl and the entry outlives its claimed expiry
instant storedAt + 0.
-/

/-- Counterexample to C9 as stated: set with ttl = 0 at time 0 into an empty
cache (default ttl 300 s). At time 1000 ms, which is strictly after the
claimed expiry instant storedAt + 0·1000 = 0, get still returns the value. -/
theorem cacheGet_zero_ttl_cex :
    (cacheGet (cacheSet ([] : TTLCache Int) "k" 7 (some 0) 300 0) "k" 1000).fst = some 7 ∧
    (1000 : Int) > 0 + 0 * 1000 := by
  constructor
  · rfl
  · decide

/-- C9, amended to positive ttl: after set(key, value, ttl) with 0 < ttl at
time now0 into a cache with unique keys, a get(key) at now1 before the expiry
instant now0 + ttl·1000 ms returns the stored value and leaves the cache
unchanged; a get(key) at now1 strictly after that instant reports a miss and
removes the entry (lazy expiry on read, independent of the background sweep). -/
theorem cacheGet_after_cacheSet (α : Type) (c : TTLCache α) (key : String) (v : α)
    (ttl defaultTtl now0 now1 : Int) (httl : 0 < ttl) (hnd : NodupKeys c) :
    ((now1 - now0 < ttl * 1000 →
       cacheGet (cacheSet c key v (some ttl) defaultTtl now0) key now1 =
         (some v, cacheSet c key v (some ttl) defaultTtl now0)) ∧
     (now1 - now0 > ttl * 1000 →
       (cacheGet (cacheSet c key v (some ttl) defaultTtl now0) key now1).fst = none ∧
       cacheLookup (cacheGet (cacheSet c key v (some ttl) defaultTtl now0) key now1).snd key
         = none)) := by
  have hz : (ttl == 0) = false := beq_eq_false_iff_ne.mpr (by omega)
  have hset : cacheSet c key v (some ttl) defaultTtl now0 =
      mapSet c key { data := v, timestamp := now0, ttl := ttl } := by
    simp [cacheSet, hz]
  have hlook : cacheLookup (cacheSet c key v (some ttl) defaultTtl now0) key =
      some { data := v, timestamp := now0, ttl := ttl } := by
    rw [hset]; exact cacheLookup_mapSet_self c key _
  have hnd2 : NodupKeys (cacheSet c key v (some ttl) defaultTtl now0) := by
    rw [hset]; exact mapSet_nodupKeys key _ hnd
  constructor
  · intro hfresh
    have hcmp : ¬ (now1 - now0 > ttl * 1000) := by omega
    simp [cacheGet, hlook, hcmp]
  · intro hstale
    have hmiss : (cacheGet (cacheSet c key v (some ttl) defaultTtl now0) key now1).fst
        = none := by
      simp [cacheGet, hlook, hstale]
    exact ⟨hmiss, cacheGet_miss_lookup_none hnd2 hmiss⟩

/-- Witness for cacheGet_after_cacheSet: ttl = 5 s, stored at 0 into the empty
cache, read at 4000 ms (fresh). -/
theorem cacheGet_after_cacheSet_witness :
    cacheGet (cacheSet ([] : TTLCache Int) "k" 9 (some 5) 300 0) "k" 4000 =
      (some 9, cacheSet ([] : TTLCache Int) "k" 9 (some 5) 300 0) :=
  (cacheGet_after_cacheSet Int [] "k" 9 5 300 0 4000 (by decide) List.Pairwise.nil).1
    (by decide)

/-! ## Aggregator (services/aggregator.ts, DataAggregator) -/

/-- A configured provider, as one fetch cycle of the aggregator sees it:
its id together with the outcome of its fetchUsage promise for this cycle
(ok = fulfilled with a record, error = rejected). -/
structure AggProvider where
  id : String
  fetch : Except String ProviderUsage
deriving Repr

/-- MonitoringConfigManager's state as read by the aggregator
(isEnabled / isApiMonitored). -/
structure MonitoringConfigState where
  enabled : Bool
  monitoredApis : List String
deriving Repr

/-- Inputs of one DataAggregator.fetchAllUsage call. `timelineData` is the
result of generateTimeline(days), which is computed from the on-disk usage
history file and is here treated as an input of the cycle. -/
structure AggInput where
  providers : List AggProvider
  config : MonitoringConfigState
  cache : TTLCache UsageData
  defaultTtl : Int
  timelineData : List TimelineData
  now : Int
deriving Repr

/-- Result of one fetchAllUsage call, instrumented with the ids of the
providers whose fetchUsage was invoked and with cache read/write counts. -/
structure AggResult where
  data : UsageData
  cache : TTLCache UsageData
  fetched : List String
  cacheReads : Nat
  cacheWrites : Nat
deriving Repr

/-- The aggregator snapshot cache key, `usage:${days}d`. -/
def aggCacheKey (days : Nat) : String := "usage:" ++ toString days ++ "d"

/-- DataAggregator.calculateSummary. -/
def calculateSummary (ps : List ProviderUsage) : Summary :=
  { totalRequests := (ps.map (fun p => p.requests)).sum
    totalCost := (ps.map (fun p => p.cost)).sum
    totalTokens := (ps.map (fun p => p.tokens.getD 0)).sum
    avgLatency := 12/10
    requestChange := some 0
    costChange := some 0
    tokenChange := some 0
    latencyChange := some 0 }

/-- DataAggregator.fetchAllUsage: return the zeroed empty snapshot when
monitoring is disabled; otherwise consult the cache and on a miss fetch all
monitored providers via Promise.allSettled, keeping only the fulfilled
results (a rejected promise is logged and dropped), then cache the snapshot. -/
def fetchAllUsage (inp : AggInput) (days : Nat) : AggResult :=
  if !inp.config.enabled then
    { data := { summary := { totalRequests := 0, totalCost := 0, totalTokens := 0,
                             avgLatency := 0 },
                providers := [], timeline := [], lastUpdated := inp.now }
      cache := inp.cache, fetched := [], cacheReads := 0, cacheWrites := 0 }
  else
    let key := aggCacheKey days
    match cacheGet inp.cache key inp.now with
    | (some cached, c1) =>
        { data := cached, cache := c1, fetched := [], cacheReads := 1, cacheWrites := 0 }
    | (none, c1) =>
        let monitored := inp.providers.filter (fun p => inp.config.monitoredApis.contains p.id)
        let settled := monitored.map (fun p => p.fetch)
        let provs := settled.filterMap Except.toOption
        let data : UsageData :=
          { summary := calculateSummary provs, providers := provs,
            timeline := inp.timelineData, lastUpdated := inp.now }
        { data := data
          cache := cacheSet c1 key data none inp.defaultTtl inp.now
          fetched := monitored.map (fun p => p.id)
          cacheReads := 1, cacheWrites := 1 }

/-- The per-provider cache key of fetchProviderUsageById, `usage:${id}:${days}d`. -/
def providerCacheKey (pid : String) (days : Nat) : String :=
  "usage:" ++ pid ++ ":" ++ toString days ++ "d"

/-- Result of one DataAggregator.fetchProviderUsageById call, instrumented
like AggResult. -/
structure ByIdResult where
  result : Option ProviderUsage
  cache : TTLCache ProviderUsage
  fetched : List String
deriving Repr

/-- DataAggregator.fetchProviderUsageById: null for an unknown id; cached
value on a cache hit; otherwise await the provider's fetchUsage, caching and
returning the record on success, and returning null from the catch block on
rejection (no cache write on that path). -/
def fetchProviderUsageById (providers : List AggProvider) (c : TTLCache ProviderUsage)
    (defaultTtl : Int) (pid : String) (days : Nat) (now : Int) : ByIdResult :=
  match providers.find? (fun p => p.id == pid) with
  | none => { result := none, cache := c, fetched := [] }
  | some p =>
    let key := providerCacheKey pid days
    match cacheGet c key now with
    | (some cached, c1) => { result := some cached, cache := c1, fetched := [] }
    | (none, c1) =>
        match p.fetch with
        | .ok usage =>
            { result := some usage, cache := cacheSet c1 key usage none defaultTtl now,
              fetched := [p.id] }
        | .error _ => { result := none, cache := c1, fetched := [p.id] }

/-! ### Structure lemmas for fetchAllUsage -/

/-- Shape of a fetchAllUsage call that finds monitoring enabled and misses
the cache. -/
theorem fetchAllUsage_miss_shape (inp : AggInput) (days : Nat)
    (hen : inp.config.enabled = true)
    (hmiss : (cacheGet inp.cache (aggCacheKey days) inp.now).fst = none) :
    fetchAllUsage inp days =
      (let monitored := inp.providers.filter (fun p => inp.config.monitoredApis.contains p.id)
       let provs := (monitored.map (fun p => p.fetch)).filterMap Except.toOption
       let data : UsageData := { summary := calculateSummary provs, providers := provs,
                                 timeline := inp.timelineData, lastUpdated := inp.now }
       { data := data
         cache := cacheSet (cacheGet inp.cache (aggCacheKey days) inp.now).snd
             (aggCacheKey days) data none inp.defaultTtl inp.now
         fetched := monitored.map (fun p => p.id), cacheReads := 1, cacheWrites := 1 }) := by
  rcases hget : cacheGet inp.cache (aggCacheKey days) inp.now with ⟨o, c1⟩
  rw [hget] at hmiss
  simp only at hmiss
  subst hmiss
  simp [fetchAllUsage, hen, hget]

/-- Shape of a fetchAllUsage call that finds monitoring enabled and hits
the cache. -/
theorem fetchAllUsage_hit_shape (inp : AggInput) (days : Nat) (v : UsageData)
    (c : TTLCache UsageData) (hen : inp.config.enabled = true)
    (hhit : cacheGet inp.cache (aggCacheKey days) inp.now = (some v, c)) :
    fetchAllUsage inp days =
      { data := v, cache := c, fetched := [], cacheReads := 1, cacheWrites := 0 } := by
  simp [fetchAllUsage, hen, hhit]

/-!
### Claim C6 — monitoring disabled

fetchAllUsage returns early with the zeroed empty snapshot: no provider is
fetched, the cache is neither read nor written.
-/

/-- C6: when MonitoringConfig.enabled is false, fetchAllUsage returns the
snapshot with all-zero summary and empty provider list, fetches no provider,
performs no cache read and no cache write, and leaves the cache unchanged. -/
theorem fetchAllUsage_disabled (inp : AggInput) (days : Nat)
    (h : inp.config.enabled = false) :
    fetchAllUsage inp days =
      { data := { summary := { totalRequests := 0, totalCost := 0, totalTokens := 0,
                               avgLatency := 0 },
                  providers := [], timeline := [], lastUpdated := inp.now }
        cache := inp.cache, fetched := [], cacheReads := 0, cacheWrites := 0 } := by
  simp [fetchAllUsage, h]

/-- Concrete disabled-config input for the C6 witness. -/
def disabledAggInput : AggInput :=
  { providers := [ { id := "openai", fetch := .error "never reached" } ]
    config := { enabled := false, monitoredApis := ["openai"] }
    cache := [], defaultTtl := 300, timelineData := [], now := 5 }

theorem fetchAllUsage_disabled_witness :
    fetchAllUsage disabledAggInput 7 =
      { data := { summary := { totalRequests := 0, totalCost := 0, totalTokens := 0,
                               avgLatency := 0 },
                  providers := [], timeline := [], lastUpdated := 5 }
        cache := [], fetched := [], cacheReads := 0, cacheWrites := 0 } :=
  fetchAllUsage_disabled disabledAggInput 7 rfl

/-!
### Claim C1 — partial failure isolation

The aggregator does collect results with Promise.allSettled, so one rejected
fetchUsage cannot abort the snapshot and fulfilled providers are kept.  But a
rejected result is only logged and skipped: the failing provider does NOT
appear in the snapshot's provider list as an Error-status record, contrary to
the claim (BaseProvider.createErrorUsage produces Error records only inside a
provider's own catch block, i.e. for fulfilled promises).
-/

/-- The spec's partial-failure scenario: account A resolves, account B's
resolver always throws (a rejected fetchUsage promise), account C resolves. -/
def recA : ProviderUsage :=
  { id := "a", name := "Provider A", requests := 120, cost := 9/2,
    tokens := some 5000, status := .active }

def recC : ProviderUsage :=
  { id := "c", name := "Provider C", requests := 3, cost := 1,
    tokens := some 40, status := .active }

def cexProviders : List AggProvider :=
  [ { id := "a", fetch := .ok recA },
    { id := "b", fetch := .error "resolver always throws" },
    { id := "c", fetch := .ok recC } ]

def cexAggInput : AggInput :=
  { providers := cexProviders
    config := { enabled := true, monitoredApis := ["a", "b", "c"] }
    cache := [], defaultTtl := 300, timelineData := [], now := 0 }

/-- Counterexample to C1 as stated: with providers a (fulfilled), b
(rejected) and c (fulfilled) all monitored, the snapshot's provider list
contains exactly a's and c's records — provider b does not appear at all, in
particular not as an Error-status record. -/
theorem fetchAllUsage_rejected_dropped_cex :
    ((fetchAllUsage cexAggInput 7).data.providers.map (fun r => r.id)) = ["a", "c"] ∧
    ((fetchAllUsage cexAggInput 7).data.providers.map (fun r => r.status)) =
      [UStatus.active, UStatus.active] ∧
    cexProviders.map (fun p => p.id) = ["a", "b", "c"] :=
  ⟨rfl, rfl, rfl⟩

/-- C1, amended: on an enabled, cache-missing cycle fetchAllUsage always
returns a snapshot (the call never raises — every outcome is a settled
result), its provider list is exactly the fulfilled results of the monitored
providers in order (so every non-failing provider appears populated
normally), and a provider whose fetchUsage rejected is dropped from the list
rather than appearing as an Error-status record. -/
theorem fetchAllUsage_partial_failure (inp : AggInput) (days : Nat)
    (hen : inp.config.enabled = true)
    (hmiss : (cacheGet inp.cache (aggCacheKey days) inp.now).fst = none) :
    (fetchAllUsage inp days).data.providers =
      ((inp.providers.filter (fun p => inp.config.monitoredApis.contains p.id)).map
         (fun p => p.fetch)).filterMap Except.toOption ∧
    (∀ p ∈ inp.providers.filter (fun p => inp.config.monitoredApis.contains p.id),
       ∀ v, p.fetch = .ok v → v ∈ (fetchAllUsage inp days).data.providers) := by
  have hshape := fetchAllUsage_miss_shape inp days hen hmiss
  constructor
  · rw [hshape]
  · intro p hp v hv
    rw [hshape]
    simp only [List.mem_filterMap]
    exact ⟨p.fetch, List.mem_map_of_mem _ hp, by rw [hv]; rfl⟩

theorem fetchAllUsage_partial_failure_witness :
    (fetchAllUsage cexAggInput 7).data.providers = [recA, recC] := by
  have h := fetchAllUsage_partial_failure cexAggInput 7 rfl rfl
  rw [h.1]
  rfl

/-!
### Claim C7 — cache idempotence within the TTL

A second fetchAllUsage call for the same days window within the default TTL
of the snapshot stored by the first call returns the identical snapshot from
the cache and invokes no provider's fetchUsage.
-/

/-- C7: let the first call (enabled, cache miss) store its snapshot; a second
enabled call for the same days window on the resulting cache, within
defaultTtl seconds of the first, returns exactly the first call's snapshot,
invokes no provider's fetchUsage and writes nothing to the cache. -/
theorem fetchAllUsage_cache_idempotent (inp inp2 : AggInput) (days : Nat)
    (hen : inp.config.enabled = true)
    (hmiss : (cacheGet inp.cache (aggCacheKey days) inp.now).fst = none)
    (h2en : inp2.config.enabled = true)
    (h2cache : inp2.cache = (fetchAllUsage inp days).cache)
    (htime : inp2.now - inp.now ≤ inp.defaultTtl * 1000) :
    (fetchAllUsage inp2 days).data = (fetchAllUsage inp days).data ∧
    (fetchAllUsage inp2 days).fetched = [] ∧
    (fetchAllUsage inp2 days).cacheWrites = 0 := by
  have hshape := fetchAllUsage_miss_shape inp days hen hmiss
  have hcache : (fetchAllUsage inp days).cache =
      mapSet (cacheGet inp.cache (aggCacheKey days) inp.now).snd (aggCacheKey days)
        { data := (fetchAllUsage inp days).data, timestamp := inp.now,
          ttl := inp.defaultTtl } := by
    rw [hshape]
    rfl
  have hlook : cacheLookup inp2.cache (aggCacheKey days) =
      some { data := (fetchAllUsage inp days).data, timestamp := inp.now,
             ttl := inp.defaultTtl } := by
    rw [h2cache, hcache]
    exact cacheLookup_mapSet_self _ _ _
  have hnexp : ¬ (inp2.now - inp.now > inp.defaultTtl * 1000) := by omega
  have hhit : cacheGet inp2.cache (aggCacheKey days) inp2.now =
      (some (fetchAllUsage inp days).data, inp2.cache) := by
    simp [cacheGet, hlook, hnexp]
  rw [fetchAllUsage_hit_shape inp2 days _ _ h2en hhit]
  exact ⟨rfl, rfl, rfl⟩

/-- Second-call input for the C7 witness: 200 s after the first call (within
the default 300 s TTL), with every provider now rejecting to exhibit that no
provider is consulted. -/
def cexAggInput2 : AggInput :=
  { providers := [ { id := "a", fetch := .error "would fail now" },
                   { id := "b", fetch := .error "would fail now" },
                   { id := "c", fetch := .error "would fail now" } ]
    config := { enabled := true, monitoredApis := ["a", "b", "c"] }
    cache := (fetchAllUsage cexAggInput 7).cache
    defaultTtl := 300, timelineData := [], now := 200000 }

theorem fetchAllUsage_cache_idempotent_witness :
    (fetchAllUsage cexAggInput2 7).data = (fetchAllUsage cexAggInput 7).data ∧
    (fetchAllUsage cexAggInput2 7).fetched = [] ∧
    (fetchAllUsage cexAggInput2 7).cacheWrites = 0 :=
  fetchAllUsage_cache_idempotent cexAggInput cexAggInput2 7 rfl rfl rfl rfl (by decide)

/-!
### Claim C10 — fetchProviderUsageById error handling

An unknown provider id and a rejected fetchUsage both yield null (the
function never throws); the per-provider cache entry is written only after a
successful fetch.
-/

/-- C10: fetchProviderUsageById (a total function here: every outcome of the
awaited fetchUsage promise is handled) returns null with the cache untouched
for an unknown id; on a cache miss followed by a rejected fetchUsage it
returns null and leaves no cache entry under the provider's key; on a cache
miss followed by a fulfilled fetchUsage it returns the record and stores it
under the provider's key. -/
theorem fetchProviderUsageById_spec (providers : List AggProvider)
    (c : TTLCache ProviderUsage) (defaultTtl : Int) (pid : String) (days : Nat)
    (now : Int) (hnd : NodupKeys c) :
    (providers.find? (fun p => p.id == pid) = none →
       fetchProviderUsageById providers c defaultTtl pid days now =
         { result := none, cache := c, fetched := [] }) ∧
    (∀ p err, providers.find? (fun p => p.id == pid) = some p →
       (cacheGet c (providerCacheKey pid days) now).fst = none →
       p.fetch = .error err →
       (fetchProviderUsageById providers c defaultTtl pid days now).result = none ∧
       cacheLookup (fetchProviderUsageById providers c defaultTtl pid days now).cache
         (providerCacheKey pid days) = none) ∧
    (∀ p v, providers.find? (fun p => p.id == pid) = some p →
       (cacheGet c (providerCacheKey pid days) now).fst = none →
       p.fetch = .ok v →
       (fetchProviderUsageById providers c defaultTtl pid days now).result = some v ∧
       cacheLookup (fetchProviderUsageById providers c defaultTtl pid days now).cache
         (providerCacheKey pid days) =
         some { data := v, timestamp := now, ttl := defaultTtl }) := by
  refine ⟨?_, ?_, ?_⟩
  · intro hfind
    simp [fetchProviderUsageById, hfind]
  · intro p err hfind hmiss hfetch
    rcases hget : cacheGet c (providerCacheKey pid days) now with ⟨o, c1⟩
    rw [hget] at hmiss
    simp only at hmiss
    subst hmiss
    have hrw : fetchProviderUsageById providers c defaultTtl pid days now =
        { result := none, cache := c1, fetched := [p.id] } := by
      simp [fetchProviderUsageById, hfind, hget, hfetch]
    rw [hrw]
    refine ⟨rfl, ?_⟩
    have := @cacheGet_miss_lookup_none _ c (providerCacheKey pid days) now
      hnd (by rw [hget])
    rw [hget] at this
    exact this
  · intro p v hfind hmiss hfetch
    rcases hget : cacheGet c (providerCacheKey pid days) now with ⟨o, c1⟩
    rw [hget] at hmiss
    simp only at hmiss
    subst hmiss
    have hrw : fetchProviderUsageById providers c defaultTtl pid days now =
        { result := some v,
          cache := cacheSet c1 (providerCacheKey pid days) v none defaultTtl now,
          fetched := [p.id] } := by
      simp [fetchProviderUsageById, hfind, hget, hfetch]
    rw [hrw]
    exact ⟨rfl, cacheLookup_mapSet_self _ _ _⟩

theorem fetchProviderUsageById_spec_witness :
    (fetchProviderUsageById cexProviders [] 300 "b" 7 0).result = none ∧
    cacheLookup (fetchProviderUsageById cexProviders [] 300 "b" 7 0).cache
      (providerCacheKey "b" 7) = none :=
  (fetchProviderUsageById_spec cexProviders [] 300 "b" 7 0 List.Pairwise.nil).2.1
    { id := "b", fetch := .error "resolver always throws" } "resolver always throws"
    rfl rfl rfl

/-! ## Warp token lifecycle (providers/warp.ts, WarpProvider.getAuthToken)

getAuthToken runs on Node's single-threaded event loop: execution of one call
is atomic between awaits, and control can pass to another pending call only
at an await point.  The model below cuts getAuthToken at its single await in
the cached-token path (the `await this.refreshFirebaseToken(...)` of lines
205-215): phase one runs from entry to either a synchronous return (valid
cached token), the start of a refresh, or the keychain path; phase two
resumes after the refresh round trip.  The keychain/manual-token path (lines
218-301) contains no shared-cache reads relevant to the modelled claims and
is abstracted as one external extraction call with an environment-given
outcome. -/

/-- The provider's cached credential fields (this.cachedToken,
this.cachedTokenExpiry, this.cachedRefreshToken). -/
structure WarpTokenState where
  cachedToken : Option String := none
  cachedTokenExpiry : Option Int := none
  cachedRefreshToken : Option String := none
deriving DecidableEq, Repr

/-- Outcomes of the external interactions during the window under analysis:
one refreshFirebaseToken round trip (none = failed), and the abstracted
keychain/manual-token extraction path. -/
structure WarpEnv where
  refreshResult : Option (String × String × Int)
  coldResult : Option String
deriving Repr

/-- A single getAuthToken call's continuation state. -/
inductive WarpCaller
  | ready
  | awaitingRefresh
  | finished (result : Option String)
deriving DecidableEq, Repr

/-- The provider object shared by all concurrent getAuthToken calls, plus
instrumentation: how many refresh calls reached the token endpoint and how
many cold extractions ran. -/
structure WarpSystem where
  state : WarpTokenState
  now : Int
  callers : List WarpCaller
  refreshCalls : Nat := 0
  coldCalls : Nat := 0
deriving DecidableEq, Repr

/-- The 5-minute refresh buffer (bufferMs). -/
def warpBufferMs : Int := 5 * 60 * 1000

/-- One event-loop turn of getAuthToken for caller i: from its current
suspension point to its next await or return.
ready: if a cached token exists and expiry - buffer > now, return it (no
I/O); else if a refresh token is cached, issue the refresh and suspend; else
take the keychain path.  awaitingRefresh: on success write token + expiry +
rotated refresh token to the shared cache and return the new token; on
failure fall through to the keychain path. -/
def warpStep (env : WarpEnv) (sys : WarpSystem) (i : Nat) : WarpSystem :=
  match sys.callers.get? i with
  | none => sys
  | some .ready =>
      match sys.state.cachedToken, sys.state.cachedTokenExpiry with
      | some t, some e =>
          if e - warpBufferMs > sys.now then
            { sys with callers := sys.callers.set i (.finished (some t)) }
          else
            match sys.state.cachedRefreshToken with
            | some _ =>
                { sys with callers := sys.callers.set i .awaitingRefresh,
                           refreshCalls := sys.refreshCalls + 1 }
            | none =>
                { sys with callers := sys.callers.set i (.finished env.coldResult),
                           coldCalls := sys.coldCalls + 1 }
      | _, _ =>
          { sys with callers := sys.callers.set i (.finished env.coldResult),
                     coldCalls := sys.coldCalls + 1 }
  | some .awaitingRefresh =>
      match env.refreshResult with
      | some (tk, rt, expiresIn) =>
          { sys with
              state := { cachedToken := some tk, cachedRefreshToken := some rt,
                         cachedTokenExpiry := some (sys.now + expiresIn * 1000) },
              callers := sys.callers.set i (.finished (some tk)) }
      | none =>
          { sys with callers := sys.callers.set i (.finished env.coldResult),
                     coldCalls := sys.coldCalls + 1 }
  | some (.finished _) => sys

/-- Run a schedule: at each turn the event loop advances the named caller. -/
def warpRun (env : WarpEnv) (sys : WarpSystem) (schedule : List Nat) : WarpSystem :=
  schedule.foldl (warpStep env) sys

/-- A single getAuthToken call with a quiescent event loop: the lone caller
runs to completion (at most one await). -/
def getAuthTokenOnce (env : WarpEnv) (st : WarpTokenState) (now : Int) : WarpSystem :=
  warpRun env { state := st, now := now, callers := [.ready] } [0, 0]

/-!
### Claim C5 — cached-token fast path

With a cached token whose expiry minus the 5-minute buffer is still ahead of
the current time, getAuthToken returns the cached token synchronously: no
refresh call, no keychain extraction, no state change; hence a second call
within the window is also I/O-free.
-/

/-- C5: if the cached token is valid (now < expiresAt - buffer), a
getAuthToken call returns it with zero refresh calls and zero keychain
extractions and leaves the credential state unchanged; a second call within
the window behaves identically, so the two calls together perform no I/O. -/
theorem getAuthToken_cached_fast_path (env env2 : WarpEnv) (st : WarpTokenState)
    (t : String) (e now1 now2 : Int)
    (htok : st.cachedToken = some t) (hexp : st.cachedTokenExpiry = some e)
    (h1 : e - warpBufferMs > now1) (h2 : e - warpBufferMs > now2) :
    getAuthTokenOnce env st now1 =
      { state := st, now := now1, callers := [.finished (some t)],
        refreshCalls := 0, coldCalls := 0 } ∧
    getAuthTokenOnce env2 st now2 =
      { state := st, now := now2, callers := [.finished (some t)],
        refreshCalls := 0, coldCalls := 0 } := by
  constructor
  · simp [getAuthTokenOnce, warpRun, warpStep, htok, hexp, h1]
  · simp [getAuthTokenOnce, warpRun, warpStep, htok, hexp, h2]

/-- Credential state for the witness: token "tokA" expiring at 10,000,000 ms
with a cached refresh token; reads at 1000 ms and 2000 ms are well inside the
expiry minus the 5-minute buffer. -/
def freshWarpState : WarpTokenState :=
  { cachedToken := some "tokA", cachedTokenExpiry := some 10000000,
    cachedRefreshToken := some "rtA" }

theorem getAuthToken_cached_fast_path_witness :
    getAuthTokenOnce { refreshResult := none, coldResult := none } freshWarpState 1000 =
      { state := freshWarpState, now := 1000, callers := [.finished (some "tokA")],
        refreshCalls := 0, coldCalls := 0 } ∧
    getAuthTokenOnce { refreshResult := none, coldResult := none } freshWarpState 2000 =
      { state := freshWarpState, now := 2000, callers := [.finished (some "tokA")],
        refreshCalls := 0, coldCalls := 0 } :=
  getAuthToken_cached_fast_path _ _ freshWarpState "tokA" 10000000 1000 2000
    rfl rfl (by decide) (by decide)

/-!
### Claim C4 — no single-flight on token refresh

getAuthToken has no per-account mutex, stored refresh promise or other
single-flight guard: each call that observes the cached token inside its
refresh window issues its own refreshFirebaseToken call.  Two calls
interleaved at the await point therefore both reach the token endpoint,
refuting the claimed "exactly one refresh call".  Refreshes coalesce only
when one call completes before the next begins, because the completed
refresh rewrites the shared cached token.
-/

/-- Shared scenario: cached token "tokOld" already inside its refresh window
at now = 0 (expiry 100,000 ms < buffer 300,000 ms), cached refresh token
present, and a refresh endpoint that succeeds with "tokNew". -/
def staleWarpState : WarpTokenState :=
  { cachedToken := some "tokOld", cachedTokenExpiry := some 100000,
    cachedRefreshToken := some "rtOld" }

def refreshOkEnv : WarpEnv :=
  { refreshResult := some ("tokNew", "rtNew", 3600), coldResult := none }

def twoCallerSystem : WarpSystem :=
  { state := staleWarpState, now := 0, callers := [.ready, .ready] }

/-- Counterexample to C4 as stated: two concurrent getAuthToken calls for the
same expiring account, interleaved at the refresh await (schedule caller 0,
caller 1, caller 0, caller 1), both reach the token-issuing endpoint —
refreshCalls is 2, not exactly 1 — even though both receive the new token. -/
theorem getAuthToken_no_single_flight_cex :
    (warpRun refreshOkEnv twoCallerSystem [0, 1, 0, 1]).refreshCalls = 2 ∧
    (warpRun refreshOkEnv twoCallerSystem [0, 1, 0, 1]).callers =
      [.finished (some "tokNew"), .finished (some "tokNew")] := by
  decide

/-- C4, amended: refreshes for one account are NOT serialized. Every caller
that observes the expiring cached token before any refresh completes issues
its own refresh call (two interleaved callers produce two refresh calls,
both receiving the refreshed token); only a caller scheduled after a
completed refresh is served from the rewritten cache without a further
refresh call. -/
theorem getAuthToken_refresh_races :
    ((warpRun refreshOkEnv twoCallerSystem [0, 1, 0, 1]).refreshCalls = 2 ∧
     (warpRun refreshOkEnv twoCallerSystem [0, 1, 0, 1]).callers =
       [.finished (some "tokNew"), .finished (some "tokNew")]) ∧
    ((warpRun refreshOkEnv twoCallerSystem [0, 0, 1, 1]).refreshCalls = 1 ∧
     (warpRun refreshOkEnv twoCallerSystem [0, 0, 1, 1]).callers =
       [.finished (some "tokNew"), .finished (some "tokNew")]) := by
  decide

/-! ## Base provider (providers/base.ts) -/

/-- BaseProvider.createErrorUsage: id, name, zero requests and cost, status
'error', lastUpdated.  The tokens field is omitted (not zero-filled), and no
rateLimit or quota window is attached. -/
def createErrorUsage (id name : String) (now : Int) : ProviderUsage :=
  { id := id, name := name, requests := 0, cost := 0, status := .error,
    lastUpdated := some now }

/-! ## Anthropic provider (providers/anthropic.ts)

The variant with the web-session source (the one whose fetchUsage tries web
session → OAuth → local stats cache → API-key probe).  External interactions
are inputs: `webResp`/`oauthResp` are the parsed JSON of a 2xx response and
`none` for a non-ok response or a thrown fetch (both handled identically by
the source), `localStats` is the parsed ~/.claude/stats-cache.json or `none`
when absent/unreadable, `probe` holds the rate-limit headers of the API-key
probe response. -/

/-- One Claude subscription tier of CLAUDE_TIERS. -/
structure ClaudeTier where
  name : String
  monthlyCost : ℚ
  fiveHourMessages : Int
  weeklyMessages : Int
  sessionsPerMonth : Int
deriving DecidableEq, Repr

def tierPro : ClaudeTier :=
  { name := "Claude Pro", monthlyCost := 20, fiveHourMessages := 45,
    weeklyMessages := 500, sessionsPerMonth := 50 }

def tierMax5x : ClaudeTier :=
  { name := "Claude Max 5x", monthlyCost := 100, fiveHourMessages := 225,
    weeklyMessages := 2500, sessionsPerMonth := 250 }

/-- The default tier (CLAUDE_TIER unset). -/
def tierMax20x : ClaudeTier :=
  { name := "Claude Max 20x", monthlyCost := 200, fiveHourMessages := 900,
    weeklyMessages := 10000, sessionsPerMonth := 1000 }

/-- One entry of LocalStatsCache.dailyActivity; the date string is modelled
by its epoch-ms value (the source always compares via new Date(d.date)). -/
structure DailyActivity where
  date : Int
  messageCount : Int
  sessionCount : Int
  toolCallCount : Int
deriving DecidableEq, Repr

/-- One Object.entries pair of LocalStatsCache.modelUsage. -/
structure ModelUsage where
  model : String
  inputTokens : Int
  outputTokens : Int
  cacheReadInputTokens : Int
  cacheCreationInputTokens : Int
deriving DecidableEq, Repr

/-- ~/.claude/stats-cache.json as read by readLocalStats, keeping the fields
the fetch paths read (version, lastComputedDate and dailyModelTokens are
only consumed by the unused calculateFiveHourUsage helper). -/
structure LocalStatsCache where
  dailyActivity : List DailyActivity
  modelUsage : List ModelUsage
  totalSessions : Int
  totalMessages : Int
deriving DecidableEq, Repr

/-- The per-model price table ($ per million tokens): input, output, cache
read, cache write, selected by substring match on the model name. -/
def modelRates (m : String) : ℚ × ℚ × ℚ × ℚ :=
  if (m.splitOn "opus").length > 1 then (15, 75, 3/2, 75/4)
  else if (m.splitOn "sonnet").length > 1 then (3, 15, 3/10, 15/4)
  else if (m.splitOn "haiku").length > 1 then (1/4, 5/4, 1/40, 3/10)
  else (0, 0, 0, 0)

/-- Display name formatting of the model breakdown. -/
def displayModelName (m : String) : String :=
  if (m.splitOn "opus").length > 1 then "Claude Opus 4"
  else if (m.splitOn "sonnet").length > 1 then "Claude Sonnet 4"
  else if (m.splitOn "haiku").length > 1 then "Claude Haiku"
  else m

/-- Math.round(x * 100) / 100: dollars rounded to 2 decimal places. -/
def centsRound (q : ℚ) : ℚ := (jsRound (q * 100) : ℚ) / 100

/-- Total tokens a model processed (input + output + cache read + cache write). -/
def modelTokens (u : ModelUsage) : Int :=
  u.inputTokens + u.outputTokens + u.cacheReadInputTokens + u.cacheCreationInputTokens

/-- Market value of one model's usage at API rates. -/
def modelCostUSD (u : ModelUsage) : ℚ :=
  let r := modelRates u.model
  (u.inputTokens : ℚ) / 1000000 * r.1 + (u.outputTokens : ℚ) / 1000000 * r.2.1 +
    (u.cacheReadInputTokens : ℚ) / 1000000 * r.2.2.1 +
    (u.cacheCreationInputTokens : ℚ) / 1000000 * r.2.2.2

/-- One model-breakdown row (per-model request counts are unavailable). -/
def breakdownOf (u : ModelUsage) : ModelBreakdown :=
  { model := displayModelName u.model, requests := 0, tokens := modelTokens u,
    cost := centsRound (modelCostUSD u) }

/-- Stable insert for the descending-by-cost sort `(a, b) => b.cost - a.cost`. -/
def insertByCostDesc (x : ModelBreakdown) : List ModelBreakdown → List ModelBreakdown
  | [] => [x]
  | y :: ys => if y.cost ≤ x.cost then x :: y :: ys else y :: insertByCostDesc x ys

/-- Array.prototype.sort with comparator `(a, b) => b.cost - a.cost` (stable,
descending by cost). -/
def sortByCostDesc (l : List ModelBreakdown) : List ModelBreakdown :=
  l.foldr insertByCostDesc []

def statsBreakdown (s : LocalStatsCache) : List ModelBreakdown :=
  sortByCostDesc (s.modelUsage.map breakdownOf)

def statsTotalTokens (s : LocalStatsCache) : Int := (s.modelUsage.map modelTokens).sum

def statsCacheRead (s : LocalStatsCache) : Int :=
  (s.modelUsage.map (fun u => u.cacheReadInputTokens)).sum

def statsCacheCreation (s : LocalStatsCache) : Int :=
  (s.modelUsage.map (fun u => u.cacheCreationInputTokens)).sum

/-- Cache efficiency: Math.round(read / (read + creation) * 100), 0 when no
cache tokens at all. -/
def statsCacheHitRate (s : LocalStatsCache) : Int :=
  let tot := statsCacheRead s + statsCacheCreation s
  if 0 < tot then jsRound ((statsCacheRead s : ℚ) / (tot : ℚ) * 100) else 0

def statsToolCalls (s : LocalStatsCache) : Int :=
  (s.dailyActivity.map (fun d => d.toolCallCount)).sum

/-- The codingMetrics block the anthropic paths derive from the local stats
(extractLocalStatsMetrics, and the identical inline computation of
buildUsageFromLocalStats and fetchOAuthUsage). -/
def statsCodingMetrics (tier : ClaudeTier) (s : LocalStatsCache) : CodingMetrics :=
  { sessions := some s.totalSessions
    toolCalls := some (statsToolCalls s)
    cacheHitRate := some (statsCacheHitRate s)
    cacheReadTokens := some (statsCacheRead s)
    cacheCreationTokens := some (statsCacheCreation s)
    marketValue := some (centsRound ((s.modelUsage.map modelCostUSD).sum))
    subscriptionCost := some tier.monthlyCost }

/-- Result shape of calculateWeeklyUsage. -/
structure WindowUsage where
  used : Int
  limit : Int
  remaining : Int
  percentage : Int
  reset : Int
deriving DecidableEq, Repr

/-- calculateWeeklyUsage: estimated 7-day rolling usage from the daily
activity log, clamped into [0 used ≤ limit] by min/max, with the reset at the
oldest in-window day plus seven days (default: tomorrow). -/
def calculateWeeklyUsage (tier : ClaudeTier) (s : LocalStatsCache) (now : Int) :
    WindowUsage :=
  let sevenDaysMs : Int := 7 * 24 * 60 * 60 * 1000
  let cutoff := now - sevenDaysMs
  let inWindow := s.dailyActivity.filter (fun d => cutoff ≤ d.date)
  let weekly := (inWindow.map (fun d => d.messageCount)).sum
  let limit := tier.weeklyMessages
  let used := min weekly limit
  let remaining := max 0 (limit - used)
  let percentage := jsRound ((used : ℚ) / (limit : ℚ) * 100)
  let reset :=
    match (inWindow.map (fun d => d.date)).min? with
    | some oldest => oldest + sevenDaysMs
    | none => now + 24 * 60 * 60 * 1000
  { used := used, limit := limit, remaining := remaining, percentage := percentage,
    reset := reset }

/-- AnthropicProvider.buildUsageFromLocalStats. -/
def buildUsageFromLocalStats (tier : ClaudeTier) (s : LocalStatsCache) (now : Int) :
    ProviderUsage :=
  let weekly := calculateWeeklyUsage tier s now
  { id := "anthropic", name := "Anthropic Claude"
    requests := s.totalMessages, cost := tier.monthlyCost
    tokens := some (statsTotalTokens s), status := .active
    lastUpdated := some now, planName := some tier.name
    rateLimit := some { limit := weekly.limit, remaining := weekly.remaining,
                        reset := weekly.reset, percentage := 100 - weekly.percentage }
    quota := some { monthlyLimit := weekly.limit, monthlyUsed := weekly.used,
                    resetDate := weekly.reset, percentage := weekly.percentage }
    modelBreakdown := some (statsBreakdown s)
    codingMetrics := some (statsCodingMetrics tier s) }

/-- The zeroed error record the anthropic fetch paths build inline
({ requests: 0, cost: 0, tokens: 0, status: 'error' }). -/
def anthropicZeroError (now : Int) : ProviderUsage :=
  { id := "anthropic", name := "Anthropic Claude", requests := 0, cost := 0,
    tokens := some 0, status := .error, lastUpdated := some now }

/-- Parsed body of a 2xx claude.ai organizations usage response; the source
reads every field through `?.` with `|| 0` / time fallbacks, hence Options. -/
structure WebUsagePayload where
  fiveHourUtilization : Option ℚ
  fiveHourResetsAt : Option Int
  sevenDayUtilization : Option ℚ
  sevenDayResetsAt : Option Int
deriving Repr

/-- AnthropicProvider.fetchWebSessionUsage.  `resp = none` covers both a
non-ok HTTP status and a thrown fetch: each returns the inline zeroed error
record.  Web utilizations arrive as 0-100 percentages.  The remaining and
percentage fields are computed WITHOUT clamping. -/
def fetchWebSessionUsage (resp : Option WebUsagePayload)
    (localStats : Option LocalStatsCache) (tier : ClaudeTier) (now : Int) :
    ProviderUsage :=
  match resp with
  | none => anthropicZeroError now
  | some d =>
      let fiveHourPercent := jsRound (d.fiveHourUtilization.getD 0)
      let sevenDayPercent := jsRound (d.sevenDayUtilization.getD 0)
      let totalRequests := match localStats with
        | some s => s.totalMessages
        | none => 0
      let totalTokens := match localStats with
        | some s => statsTotalTokens s
        | none => 0
      let estFive := jsRound ((fiveHourPercent : ℚ) / 100 * (tier.fiveHourMessages : ℚ))
      let estWeek := jsRound ((sevenDayPercent : ℚ) / 100 * (tier.weeklyMessages : ℚ))
      { id := "anthropic", name := "Anthropic Claude"
        requests := totalRequests, cost := tier.monthlyCost, tokens := some totalTokens
        status := .active, lastUpdated := some now, planName := some tier.name
        rateLimit := some { limit := tier.fiveHourMessages,
                            remaining := tier.fiveHourMessages - estFive,
                            reset := d.fiveHourResetsAt.getD (now + 5 * 60 * 60 * 1000),
                            percentage := 100 - fiveHourPercent }
        quota := some { monthlyLimit := tier.weeklyMessages, monthlyUsed := estWeek,
                        resetDate := d.sevenDayResetsAt.getD (now + 7 * 24 * 60 * 60 * 1000),
                        percentage := sevenDayPercent }
        modelBreakdown := match localStats with
          | some s => if 0 < (statsBreakdown s).length then some (statsBreakdown s) else none
          | none => none
        codingMetrics := localStats.map (fun s => statsCodingMetrics tier s) }

/-- The rate-limit headers of the API-key probe response (absent header =
none; parseInt of the header value is abstracted to the value). -/
structure ProbeHeaders where
  requestsLimit : Option Int
  requestsRemaining : Option Int
  requestsReset : Option Int
deriving DecidableEq, Repr

/-- AnthropicProvider.parseRateLimitHeaders: limit defaults to 50, remaining
to the limit, reset to now + 60 s; percentage = Math.round(remaining/limit·100). -/
def parseRateLimitHeaders (h : ProbeHeaders) (now : Int) : RateLimitW :=
  let limit := h.requestsLimit.getD 50
  let remaining := h.requestsRemaining.getD limit
  { limit := limit, remaining := remaining
    reset := h.requestsReset.getD (now + 60000)
    percentage := jsRound ((remaining : ℚ) / (limit : ℚ) * 100) }

/-- AnthropicProvider.fetchApiKeyUsage: without an API key, or when the probe
request throws, the zeroed error record; otherwise an 'active' record with
zero counters and only the parsed rate-limit window. -/
def fetchApiKeyUsage (hasApiKey : Bool) (probe : Option ProbeHeaders) (now : Int) :
    ProviderUsage :=
  if !hasApiKey then anthropicZeroError now
  else
    match probe with
    | some h =>
        { id := "anthropic", name := "Anthropic Claude", requests := 0, cost := 0,
          tokens := some 0, status := .active, lastUpdated := some now,
          rateLimit := some (parseRateLimitHeaders h now) }
    | none => anthropicZeroError now

/-- Parsed body of a 2xx OAuth usage response (OAuthUsageResponse: fields
accessed without optional chaining).  OAuth utilizations are 0-1 decimals. -/
structure OAuthUsagePayload where
  fiveHourUtilization : ℚ
  fiveHourResetsAt : Int
  sevenDayUtilization : ℚ
  sevenDayResetsAt : Int
deriving Repr

/-- AnthropicProvider.fetchOAuthUsage.  `resp = none` covers a non-ok status
and a thrown fetch: both fall back inside this function to the local stats
cache and then to the API-key probe.  On success the OAuth percentages are
Math.round(utilization · 100) and the record is enriched from the local
stats exactly as in the web-session path; remaining/percentage are again
NOT clamped. -/
def fetchOAuthUsage (resp : Option OAuthUsagePayload)
    (localStats : Option LocalStatsCache) (hasApiKey : Bool)
    (probe : Option ProbeHeaders) (tier : ClaudeTier) (now : Int) : ProviderUsage :=
  match resp with
  | none =>
      (match localStats with
       | some s => buildUsageFromLocalStats tier s now
       | none => fetchApiKeyUsage hasApiKey probe now)
  | some d =>
      let fiveHourPercent := jsRound (d.fiveHourUtilization * 100)
      let sevenDayPercent := jsRound (d.sevenDayUtilization * 100)
      let totalRequests := match localStats with
        | some s => s.totalMessages
        | none => 0
      let totalTokens := match localStats with
        | some s => statsTotalTokens s
        | none => 0
      let estFive := jsRound ((fiveHourPercent : ℚ) / 100 * (tier.fiveHourMessages : ℚ))
      let estWeek := jsRound ((sevenDayPercent : ℚ) / 100 * (tier.weeklyMessages : ℚ))
      { id := "anthropic", name := "Anthropic Claude"
        requests := totalRequests, cost := tier.monthlyCost, tokens := some totalTokens
        status := .active, lastUpdated := some now, planName := some tier.name
        rateLimit := some { limit := tier.fiveHourMessages,
                            remaining := tier.fiveHourMessages - estFive,
                            reset := d.fiveHourResetsAt,
                            percentage := 100 - fiveHourPercent }
        quota := some { monthlyLimit := tier.weeklyMessages, monthlyUsed := estWeek,
                        resetDate := d.sevenDayResetsAt,
                        percentage := sevenDayPercent }
        modelBreakdown := match localStats with
          | some s => if 0 < (statsBreakdown s).length then some (statsBreakdown s) else none
          | none => none
        codingMetrics := localStats.map (fun s => statsCodingMetrics tier s) }

/-- The four data sources of AnthropicProvider.fetchUsage, in declared
fidelity order. -/
inductive ASource
  | webSession
  | oauthApi
  | localCache
  | apiKeyProbe
deriving DecidableEq, Repr

/-- Everything external one AnthropicProvider.fetchUsage call can observe. -/
structure AnthropicEnv where
  hasSessionKey : Bool
  webResp : Option WebUsagePayload
  hasOauthToken : Bool
  oauthResp : Option OAuthUsagePayload
  localStats : Option LocalStatsCache
  hasApiKey : Bool
  probe : Option ProbeHeaders
  tier : ClaudeTier
  now : Int

/-- AnthropicProvider.fetchUsage (the resolver dispatch), instrumented with
the list of sources the resolver tries, in the order it tries them.  A
source is "tried" when the resolver invokes it at its priority step; reads a
source performs internally while building its own record (local-stats
enrichment, and fetchOAuthUsage's internal fallback) belong to that source's
entry.  Priority 3/4 are one unit here: readLocalStats, and on a missing
cache the API-key probe. -/
def anthropicFetchUsage (env : AnthropicEnv) : ProviderUsage × List ASource :=
  let p34 : ProviderUsage × List ASource :=
    match env.localStats with
    | some s => (buildUsageFromLocalStats env.tier s env.now, [ASource.localCache])
    | none => (fetchApiKeyUsage env.hasApiKey env.probe env.now,
               [ASource.localCache, ASource.apiKeyProbe])
  let p234 : ProviderUsage × List ASource :=
    if env.hasOauthToken then
      let o := fetchOAuthUsage env.oauthResp env.localStats env.hasApiKey env.probe
        env.tier env.now
      if o.status = UStatus.active then (o, [ASource.oauthApi])
      else (p34.fst, ASource.oauthApi :: p34.snd)
    else p34
  if env.hasSessionKey then
    let w := fetchWebSessionUsage env.webResp env.localStats env.tier env.now
    if w.status = UStatus.active then (w, [ASource.webSession])
    else (p234.fst, ASource.webSession :: p234.snd)
  else p234

/-! ### Claim C3 — fidelity-ordered fallback with terminal first usable source

Specification-side description of the fallback chain, to be compared with
the execution-derived consultation list of `anthropicFetchUsage`. -/

/-- The declared fidelity order of the Anthropic sources. -/
def anthropicSourceOrder : List ASource :=
  [.webSession, .oauthApi, .localCache, .apiKeyProbe]

/-- Whether a source is applicable (its credentials/preconditions hold, so
the resolver invokes it at all). The local cache and API-key probe steps are
always attempted. -/
def sourceApplicable (env : AnthropicEnv) : ASource → Bool
  | .webSession => env.hasSessionKey
  | .oauthApi => env.hasOauthToken
  | .localCache => true
  | .apiKeyProbe => true

/-- The record a source produces when the resolver tries it.  For the
priority-3 step this is the record resolution from the local cache onward
yields (the probe record when the stats cache is missing). -/
def sourceRecord (env : AnthropicEnv) : ASource → ProviderUsage
  | .webSession => fetchWebSessionUsage env.webResp env.localStats env.tier env.now
  | .oauthApi =>
      fetchOAuthUsage env.oauthResp env.localStats env.hasApiKey env.probe env.tier env.now
  | .localCache =>
      match env.localStats with
      | some s => buildUsageFromLocalStats env.tier s env.now
      | none => fetchApiKeyUsage env.hasApiKey env.probe env.now
  | .apiKeyProbe => fetchApiKeyUsage env.hasApiKey env.probe env.now

/-- Whether a tried source reports a usable (terminal) result: for web
session and OAuth the resolver's test is `status === 'active'`; the local
cache is usable when the stats file exists; the API-key probe is the
baseline, always terminal. -/
def sourceUsable (env : AnthropicEnv) : ASource → Bool
  | .webSession => (sourceRecord env .webSession).status == UStatus.active
  | .oauthApi => (sourceRecord env .oauthApi).status == UStatus.active
  | .localCache => env.localStats.isSome
  | .apiKeyProbe => true

/-- The prefix of a list up to and including its first element satisfying p. -/
def takeToFirst (p : α → Bool) : List α → List α
  | [] => []
  | a :: as => if p a then [a] else a :: takeToFirst p as

theorem takeToFirst_usable_getLast (p : α → Bool) (l : List α) (a : α)
    (ha : a ∈ takeToFirst p l) (hp : p a = true) :
    (takeToFirst p l).getLast? = some a := by
  induction l with
  | nil => simp [takeToFirst] at ha
  | cons x xs ih =>
      unfold takeToFirst at ha ⊢
      by_cases hx : p x = true
      · rw [if_pos hx] at ha ⊢
        simp at ha
        subst ha
        rfl
      · rw [if_neg hx] at ha ⊢
        rcases List.mem_cons.mp ha with hax | hax
        · subst hax
          exact absurd hp hx
        · have hlast := ih hax
          cases hrest : takeToFirst p xs with
          | nil => rw [hrest] at hax; simp at hax
          | cons b bs =>
              rw [hrest] at hlast
              rw [List.getLast?_cons_cons]
              exact hlast

/-- Execution of the resolver agrees with the specification-side description:
the pair (record, consulted list) equals (record of the first usable
applicable source, the applicable sources in fidelity order up to and
including the first usable one). -/
theorem anthropicFetchUsage_characterization (env : AnthropicEnv) :
    anthropicFetchUsage env =
      (sourceRecord env
         (((anthropicSourceOrder.filter (sourceApplicable env)).find?
            (sourceUsable env)).getD ASource.apiKeyProbe),
       takeToFirst (sourceUsable env)
         (anthropicSourceOrder.filter (sourceApplicable env))) := by
  obtain ⟨hsk, webResp, hot, oauthResp, ls, hak, probe, tier, now⟩ := env
  cases hsk <;> cases hot <;> cases webResp <;> cases oauthResp <;> cases ls <;>
    cases hak <;> cases probe <;> rfl

/-- C3: the resolver consults the sources strictly in the declared fidelity
order (web session, OAuth, local stats cache, API-key probe), restricted to
the applicable ones, stopping at the first usable source; the final record is
that source's record; and any usable source that was consulted is the last
one consulted — no later source is tried after a usable result. -/
theorem anthropic_fidelity_order (env : AnthropicEnv) :
    (anthropicFetchUsage env).snd =
      takeToFirst (sourceUsable env)
        (anthropicSourceOrder.filter (sourceApplicable env)) ∧
    (anthropicFetchUsage env).fst =
      sourceRecord env
        (((anthropicSourceOrder.filter (sourceApplicable env)).find?
           (sourceUsable env)).getD ASource.apiKeyProbe) ∧
    (∀ s, s ∈ (anthropicFetchUsage env).snd → sourceUsable env s = true →
       (anthropicFetchUsage env).snd.getLast? = some s) := by
  have h := anthropicFetchUsage_characterization env
  refine ⟨by rw [h], by rw [h], ?_⟩
  intro s hs hp
  rw [h] at hs ⊢
  exact takeToFirst_usable_getLast _ _ _ hs hp

/-- Witness for anthropic_fidelity_order: an environment where the web
session source is usable; the consulted list is [webSession] alone, so in
particular the usable web-session source is terminal. -/
def webOnlyEnv : AnthropicEnv :=
  { hasSessionKey := true
    webResp := some { fiveHourUtilization := some 40, fiveHourResetsAt := some 7000,
                      sevenDayUtilization := some 10, sevenDayResetsAt := some 9000 }
    hasOauthToken := true
    oauthResp := some { fiveHourUtilization := 1/2, fiveHourResetsAt := 7000,
                        sevenDayUtilization := 1/10, sevenDayResetsAt := 9000 }
    localStats := none
    hasApiKey := true
    probe := some { requestsLimit := some 50, requestsRemaining := some 49,
                    requestsReset := some 60000 }
    tier := tierMax20x
    now := 0 }

theorem anthropic_fidelity_order_witness :
    (anthropicFetchUsage webOnlyEnv).snd.getLast? = some ASource.webSession :=
  (anthropic_fidelity_order webOnlyEnv).2.2 ASource.webSession (by decide) (by decide)

/-! ## Warp usage record (providers/warp.ts, WarpProvider.buildUsage) -/

/-- The requestLimitInfo fields buildUsage reads into typed record fields.
The voice/codebase-indexing/pooling fields feed only the untyped extended
metadata spread and are omitted with it. -/
structure WarpRequestLimitInfo where
  isUnlimited : Bool
  nextRefreshTime : Int
  requestLimit : Int
  requestsUsedSinceLastRefresh : Int
  acceptedAutosuggestionsLimit : Int
  acceptedAutosuggestionsSinceLastRefresh : Int
deriving DecidableEq, Repr

/-- A bonus grant (WarpBonusGrant). -/
structure WarpGrant where
  createdAt : Int
  expiration : Int
  reason : String
  requestCreditsGranted : Int
  requestCreditsRemaining : Int
deriving DecidableEq, Repr

/-- The GraphQL user payload: request limits, the workspaces' bonus grants
(flattened in workspace order) and the user-level bonus grants. -/
structure WarpUserData where
  requestLimitInfo : WarpRequestLimitInfo
  workspaceGrants : List WarpGrant
  bonusGrants : List WarpGrant
deriving DecidableEq, Repr

/-- Add-on credits: workspace grants with reason
purchased_addon_credits_a_la_carte, plus every user-level bonus grant. -/
def warpAddonCredits (d : WarpUserData) : Int :=
  ((d.workspaceGrants.filter
      (fun g => g.reason == "purchased_addon_credits_a_la_carte")).map
    (fun g => g.requestCreditsRemaining)).sum +
  (d.bonusGrants.map (fun g => g.requestCreditsRemaining)).sum

/-- WarpProvider.buildUsage: remaining is clamped at zero (Math.max), the
percentage is remaining/limit·100 when limit > 0 (else 0), rounded. -/
def warpBuildUsage (d : WarpUserData) (now : Int) : ProviderUsage :=
  let used := d.requestLimitInfo.requestsUsedSinceLastRefresh
  let limit := d.requestLimitInfo.requestLimit
  let recurringRemaining := max 0 (limit - used)
  let recurringPercent : ℚ :=
    if 0 < limit then (recurringRemaining : ℚ) / (limit : ℚ) * 100 else 0
  let addon := warpAddonCredits d
  { id := "warp", name := "Warp.dev", requests := used, cost := 0
    tokens := some (used * 1000), status := .active, lastUpdated := some now
    rateLimit := some { limit := limit, remaining := recurringRemaining,
                        reset := d.requestLimitInfo.nextRefreshTime,
                        percentage := jsRound recurringPercent }
    suggestions := some addon
    edgeInvocations := some (recurringRemaining + addon)
    codingMetrics := some
      { suggestionsShown := some d.requestLimitInfo.acceptedAutosuggestionsLimit
        suggestionsAccepted := some d.requestLimitInfo.acceptedAutosuggestionsSinceLastRefresh } }

/-- WarpProvider.fetchUsage: without an auth token an 'inactive' record with
an error message; with a token, the GraphQL payload (none = the request threw
or had an unexpected shape) is built into a record, a failure becoming
createErrorUsage from the catch block. -/
def warpFetchUsage (authToken : Option String) (graphql : Option WarpUserData)
    (now : Int) : ProviderUsage :=
  match authToken with
  | none =>
      { id := "warp", name := "Warp.dev", requests := 0, cost := 0, tokens := some 0,
        status := .inactive, lastUpdated := some now,
        errorMessage :=
          some "No valid Warp token. Try restarting Warp (Cmd+Q, then reopen)." }
  | some _ =>
      match graphql with
      | some d => warpBuildUsage d now
      | none => createErrorUsage "warp" "Warp.dev" now

/-!
### Claim C2 — clamping of rate-limit and quota fields

The claim fails: the web-session path computes remaining and percentage from
the reported utilization percentage without any clamping, so a utilization
above 100 produces a negative remaining and a negative percentage (and a
quota percentage above 100).  The clamps do hold on the local-stats path (its
min/max arithmetic) and on Warp's buildUsage (Math.max and a division bounded
by construction), given nonnegative raw counts.
-/

/-- The claimed clamp on a rate-limit window. -/
def rlClamped (rl : RateLimitW) : Prop :=
  0 ≤ rl.remaining ∧ rl.remaining ≤ rl.limit ∧ 0 ≤ rl.percentage ∧ rl.percentage ≤ 100

/-- The claimed clamp on a quota window. -/
def quotaClamped (q : QuotaW) : Prop :=
  0 ≤ q.monthlyUsed ∧ q.monthlyUsed ≤ q.monthlyLimit ∧
  0 ≤ q.percentage ∧ q.percentage ≤ 100

/-- A 2xx web-session body reporting 200% utilization in both windows. -/
def overUtilPayload : WebUsagePayload :=
  { fiveHourUtilization := some 200, fiveHourResetsAt := some 7200000,
    sevenDayUtilization := some 200, sevenDayResetsAt := some 9000000 }

/-- Counterexample to C2 as stated: on the default tier (900 messages per 5 h
window, 10000 per week) a web-session payload with utilization 200 yields an
ACTIVE record whose rate-limit window has remaining = -900 < 0 and
percentage = -100 < 0, and whose quota window has used = 20000 > limit and
percentage = 200 > 100: nothing is clamped on this path. -/
theorem web_session_unclamped_cex :
    (fetchWebSessionUsage (some overUtilPayload) none tierMax20x 0).status
      = UStatus.active ∧
    (fetchWebSessionUsage (some overUtilPayload) none tierMax20x 0).rateLimit =
      some { limit := 900, remaining := -900, reset := 7200000, percentage := -100 } ∧
    (fetchWebSessionUsage (some overUtilPayload) none tierMax20x 0).quota =
      some { monthlyLimit := 10000, monthlyUsed := 20000, resetDate := 9000000,
             percentage := 200 } ∧
    ¬ (fetchWebSessionUsage (some overUtilPayload) none tierMax20x 0).rateLimit.elim
        True rlClamped := by
  have h200 : jsRound ((200 : ℚ)) = 200 := by norm_num [jsRound_def]
  have hest5 : jsRound ((1800 : ℚ)) = 1800 := by norm_num [jsRound_def]
  have hest7 : jsRound ((20000 : ℚ)) = 20000 := by norm_num [jsRound_def]
  refine ⟨rfl, ?_, ?_, ?_⟩
  · norm_num [fetchWebSessionUsage, overUtilPayload, tierMax20x, h200, hest5]
  · norm_num [fetchWebSessionUsage, overUtilPayload, tierMax20x, h200, hest7]
  · simp only [fetchWebSessionUsage, overUtilPayload, tierMax20x, Option.elim,
      Option.getD, h200, rlClamped]
    norm_num [hest5]

/-- Math.round(r/l·100) lies in [0, 100] when 0 ≤ r ≤ l and 0 < l. -/
theorem jsRound_pct_bounds (r l : Int) (h0 : 0 ≤ r) (hle : r ≤ l) (hpos : 0 < l) :
    0 ≤ jsRound ((r : ℚ) / (l : ℚ) * 100) ∧ jsRound ((r : ℚ) / (l : ℚ) * 100) ≤ 100 := by
  have hl : (0 : ℚ) < (l : ℚ) := by exact_mod_cast hpos
  have hr : (0 : ℚ) ≤ (r : ℚ) := by exact_mod_cast h0
  have hrl : (r : ℚ) ≤ (l : ℚ) := by exact_mod_cast hle
  have hq0 : (0 : ℚ) ≤ (r : ℚ) / (l : ℚ) * 100 := by positivity
  have hq1 : (r : ℚ) / (l : ℚ) ≤ 1 := (div_le_one hl).mpr hrl
  have hq2 : (r : ℚ) / (l : ℚ) * 100 ≤ 100 := by nlinarith
  exact jsRound_bounds hq0 hq2

/-- The min/max arithmetic of calculateWeeklyUsage clamps its window: with a
positive tier limit and nonnegative daily message counts, 0 ≤ used ≤ limit,
0 ≤ remaining ≤ limit and 0 ≤ percentage ≤ 100. -/
theorem calculateWeeklyUsage_bounds (tier : ClaudeTier) (s : LocalStatsCache)
    (now : Int) (htier : 0 < tier.weeklyMessages)
    (hmsg : ∀ d ∈ s.dailyActivity, 0 ≤ d.messageCount) :
    0 ≤ (calculateWeeklyUsage tier s now).used ∧
    (calculateWeeklyUsage tier s now).used ≤ (calculateWeeklyUsage tier s now).limit ∧
    0 ≤ (calculateWeeklyUsage tier s now).remaining ∧
    (calculateWeeklyUsage tier s now).remaining
      ≤ (calculateWeeklyUsage tier s now).limit ∧
    0 ≤ (calculateWeeklyUsage tier s now).percentage ∧
    (calculateWeeklyUsage tier s now).percentage ≤ 100 := by
  have hweekly : 0 ≤ ((s.dailyActivity.filter
      (fun d => decide (now - 7 * 24 * 60 * 60 * 1000 ≤ d.date))).map
        (fun d => d.messageCount)).sum := by
    apply List.sum_nonneg
    intro x hx
    rcases List.mem_map.mp hx with ⟨d, hd, rfl⟩
    exact hmsg d (List.mem_of_mem_filter hd)
  simp only [calculateWeeklyUsage]
  set w := ((s.dailyActivity.filter
      (fun d => decide (now - 7 * 24 * 60 * 60 * 1000 ≤ d.date))).map
        (fun d => d.messageCount)).sum with hw
  have h1 : 0 ≤ min w tier.weeklyMessages := le_min hweekly (le_of_lt htier)
  have h2 : min w tier.weeklyMessages ≤ tier.weeklyMessages := min_le_right _ _
  have hpct := jsRound_pct_bounds (min w tier.weeklyMessages) tier.weeklyMessages
    h1 h2 htier
  refine ⟨h1, h2, le_max_left _ _, ?_, hpct.1, hpct.2⟩
  exact max_le (le_of_lt htier) (by omega)

/-- C2, amended: every rate-limit window built by Warp's buildUsage (with
nonnegative raw used/limit counts) and every rate-limit or quota window built
by the Anthropic local-stats path (positive tier limit, nonnegative daily
message counts) satisfies the clamp 0 ≤ remaining ≤ limit, 0 ≤ used ≤ limit
and 0 ≤ percentage ≤ 100; the web-session path does not clamp (see the
counterexample). -/
theorem clamped_rate_quota_windows (wd : WarpUserData) (tier : ClaudeTier)
    (s : LocalStatsCache) (wnow anow : Int)
    (hwu : 0 ≤ wd.requestLimitInfo.requestsUsedSinceLastRefresh)
    (hwl : 0 ≤ wd.requestLimitInfo.requestLimit)
    (htier : 0 < tier.weeklyMessages)
    (hmsg : ∀ d ∈ s.dailyActivity, 0 ≤ d.messageCount) :
    (warpBuildUsage wd wnow).rateLimit.elim True rlClamped ∧
    (buildUsageFromLocalStats tier s anow).rateLimit.elim True rlClamped ∧
    (buildUsageFromLocalStats tier s anow).quota.elim True quotaClamped := by
  obtain ⟨hu0, hule, hr0, hrle, hp0, hple⟩ :=
    calculateWeeklyUsage_bounds tier s anow htier hmsg
  refine ⟨?_, ?_, ?_⟩
  · simp only [warpBuildUsage, Option.elim, rlClamped]
    set u := wd.requestLimitInfo.requestsUsedSinceLastRefresh with husrc
    set l := wd.requestLimitInfo.requestLimit with hlsrc
    refine ⟨le_max_left _ _, max_le hwl (by omega), ?_⟩
    by_cases hpos : 0 < l
    · rw [if_pos hpos]
      exact jsRound_pct_bounds (max 0 (l - u)) l (le_max_left _ _)
        (max_le (le_of_lt hpos) (by omega)) hpos
    · rw [if_neg hpos]
      constructor <;> norm_num [jsRound_def]
  · simp only [buildUsageFromLocalStats, Option.elim, rlClamped]
    refine ⟨hr0, hrle, by omega, by omega⟩
  · simp only [buildUsageFromLocalStats, Option.elim, quotaClamped]
    exact ⟨hu0, hule, hp0, hple⟩

/-- Concrete Warp payload for witnesses: 5 of 100 requests used, no grants. -/
def wdEx : WarpUserData :=
  { requestLimitInfo :=
      { isUnlimited := false, nextRefreshTime := 1000000, requestLimit := 100,
        requestsUsedSinceLastRefresh := 5, acceptedAutosuggestionsLimit := 1000,
        acceptedAutosuggestionsSinceLastRefresh := 37 }
    workspaceGrants := [], bonusGrants := [] }

/-- Concrete local stats for witnesses: one day with 10 messages, no model
usage entries. -/
def sEx : LocalStatsCache :=
  { dailyActivity := [ { date := 0, messageCount := 10, sessionCount := 1,
                         toolCallCount := 3 } ]
    modelUsage := [], totalSessions := 1, totalMessages := 10 }

theorem clamped_rate_quota_windows_witness :
    (warpBuildUsage wdEx 0).rateLimit.elim True rlClamped ∧
    (buildUsageFromLocalStats tierPro sEx 0).rateLimit.elim True rlClamped ∧
    (buildUsageFromLocalStats tierPro sEx 0).quota.elim True quotaClamped :=
  clamped_rate_quota_windows wdEx tierPro sEx 0 0 (by decide) (by decide)
    (by decide) (by decide)

/-!
### Claim C8 — Error-status records are zeroed and carry no windows

Checked for every modelled producer of usage records.  All error-status
records have requests = 0, cost = 0, no rate-limit window and no quota
window; the tokens field is either an explicit 0 (the anthropic inline error
records) or omitted entirely (BaseProvider.createErrorUsage omits it rather
than zero-filling, in line with the data model's treatment of absent
optional fields). -/

/-- The claimed shape of an Error-status record: zero requests and cost, a
token count that is zero when present, no rate-limit and no quota window. -/
def errorZeroed (r : ProviderUsage) : Prop :=
  r.status = UStatus.error →
    r.requests = 0 ∧ r.cost = 0 ∧ (r.tokens = none ∨ r.tokens = some 0) ∧
    r.rateLimit = none ∧ r.quota = none

/-- C8: every record producer in the model satisfies errorZeroed — records
with Error status are zeroed and windowless, whatever the inputs. -/
theorem error_status_records_zeroed (id name : String) (now : Int)
    (webResp : Option WebUsagePayload) (oauthResp : Option OAuthUsagePayload)
    (ls : Option LocalStatsCache) (s : LocalStatsCache) (hasApiKey : Bool)
    (probe : Option ProbeHeaders) (tier : ClaudeTier) (env : AnthropicEnv)
    (wd : WarpUserData) (wtok : Option String) (wq : Option WarpUserData) :
    errorZeroed (createErrorUsage id name now) ∧
    errorZeroed (fetchWebSessionUsage webResp ls tier now) ∧
    errorZeroed (fetchOAuthUsage oauthResp ls hasApiKey probe tier now) ∧
    errorZeroed (fetchApiKeyUsage hasApiKey probe now) ∧
    errorZeroed (buildUsageFromLocalStats tier s now) ∧
    errorZeroed (anthropicFetchUsage env).fst ∧
    errorZeroed (warpBuildUsage wd now) ∧
    errorZeroed (warpFetchUsage wtok wq now) := by
  have hzero : ∀ n : Int, errorZeroed (anthropicZeroError n) :=
    fun n _ => ⟨rfl, rfl, Or.inr rfl, rfl, rfl⟩
  have hcreate : ∀ (i nm : String) (n : Int), errorZeroed (createErrorUsage i nm n) :=
    fun i nm n _ => ⟨rfl, rfl, Or.inl rfl, rfl, rfl⟩
  have hweb : ∀ w ls2 t n, errorZeroed (fetchWebSessionUsage w ls2 t n) := by
    intro w ls2 t n
    cases w with
    | none => exact hzero n
    | some d => intro h; simp [fetchWebSessionUsage] at h
  have hapi : ∀ b p n, errorZeroed (fetchApiKeyUsage b p n) := by
    intro b p n
    cases b with
    | false => exact hzero n
    | true =>
        cases p with
        | none => exact hzero n
        | some hh => intro h; simp [fetchApiKeyUsage] at h
  have hbuild : ∀ t s2 n, errorZeroed (buildUsageFromLocalStats t s2 n) := by
    intro t s2 n h
    simp [buildUsageFromLocalStats] at h
  have hoauth : ∀ o ls2 b p t n, errorZeroed (fetchOAuthUsage o ls2 b p t n) := by
    intro o ls2 b p t n
    cases o with
    | none =>
        cases ls2 with
        | none => exact hapi b p n
        | some s2 => exact hbuild t s2 n
    | some d => intro h; simp [fetchOAuthUsage] at h
  have hwbuild : ∀ d n, errorZeroed (warpBuildUsage d n) := by
    intro d n h
    simp [warpBuildUsage] at h
  have hwfetch : ∀ tok g n, errorZeroed (warpFetchUsage tok g n) := by
    intro tok g n
    cases tok with
    | none => intro h; simp [warpFetchUsage] at h
    | some t =>
        cases g with
        | none => exact hcreate "warp" "Warp.dev" n
        | some d => exact hwbuild d n
  have hsrc : ∀ s', errorZeroed (sourceRecord env s') := by
    intro s'
    cases s' with
    | webSession => exact hweb _ _ _ _
    | oauthApi => exact hoauth _ _ _ _ _ _
    | localCache =>
        cases hls : env.localStats with
        | none => simp only [sourceRecord, hls]; exact hapi _ _ _
        | some s2 => simp only [sourceRecord, hls]; exact hbuild _ _ _
    | apiKeyProbe => exact hapi _ _ _
  have hfst : errorZeroed (anthropicFetchUsage env).fst := by
    rw [anthropicFetchUsage_characterization env]
    exact hsrc _
  exact ⟨hcreate id name now, hweb _ _ _ _, hoauth _ _ _ _ _ _, hapi _ _ _,
    hbuild _ _ _, hfst, hwbuild _ _, hwfetch _ _ _⟩

theorem error_status_records_zeroed_witness :
    (createErrorUsage "openai" "OpenAI" 0).requests = 0 ∧
    (createErrorUsage "openai" "OpenAI" 0).cost = 0 ∧
    ((createErrorUsage "openai" "OpenAI" 0).tokens = none ∨
      (createErrorUsage "openai" "OpenAI" 0).tokens = some 0) ∧
    (createErrorUsage "openai" "OpenAI" 0).rateLimit = none ∧
    (createErrorUsage "openai" "OpenAI" 0).quota = none :=
  (error_status_records_zeroed "openai" "OpenAI" 0 none none none sEx false none
    tierPro webOnlyEnv wdEx none none).1 rfl

end AIUsage
